import Mathlib

/-!
Shallow embedding of the erp-core-backend route handlers
(src/app/routes/inventory.py, src/app/routes/procurement.py,
src/app/routes/sales.py) over the SQLAlchemy models of src/app/models.py.

Modelling conventions:
  * Each table is a Lean list of records; the session/DB is a `DB` structure.
  * Row identities (UUID primary keys with a Python-side `default=uuid.uuid4`)
    are modelled as `Option Nat`: the ORM assigns the id at flush/insert time,
    so a transient (not yet added/flushed) record carries `none` in its id
    field — exactly the value Python code reads when it accesses the
    attribute before flush.  `DB.nextId` is the id generator.
  * `Integer` columns are `Int`, `Numeric` columns are `Rat`, status strings
    stay `String` to match the free-form status fields of the source.
  * A FastAPI handler becomes `DB → args → Outcome α`: `ok` carries the
    response payload and the committed state; `err` carries the HTTP status
    code and detail of the raised `HTTPException` (or 500 for an unhandled
    Python exception), and — matching SQLAlchemy transaction rollback —
    leaves the store unchanged.
  * SQLAlchemy's `Column.__ne__` turns a comparison with `None` into
    `IS NOT NULL`; comparing an `Option Nat` stored id (`some _`) with `none`
    in Lean yields the same truth value, so bulk-update filters are
    transcribed literally.
-/

structure StockItem where
  item_id : Option Nat
  item_name : String
  item_qty : Int
  rate : Rat
  safety_stock : Int
deriving Repr, DecidableEq

structure Supplier where
  supplier_id : Option Nat
  supplier_name : String
  account_balance : Rat
  discount_offered : Rat
deriving Repr, DecidableEq

structure PurchaseOrder where
  po_id : Option Nat
  supplier_id : Option Nat
  item_id : Option Nat
  qty_ordered : Int
  final_price_per_item : Option Rat
  po_status : String
deriving Repr, DecidableEq

structure Acknowledgement where
  ack_id : Option Nat
  po_id : Option Nat
  final_price_per_item : Option Rat
  status : String
  is_final : Bool
  version : Int
deriving Repr, DecidableEq

structure DeliveryInbound where
  delivery_inbound_id : Option Nat
  po_id : Option Nat
  status : String
deriving Repr, DecidableEq

structure Bill where
  bill_id : Option Nat
  po_id : Option Nat
  ack_id : Option Nat
  payment_status : String
  payment_reference : Option String
deriving Repr, DecidableEq

structure Client where
  client_id : Option Nat
  client_name : String
  account_balance : Rat
deriving Repr, DecidableEq

structure Quote where
  quote_id : Option Nat
  client_id : Option Nat
  item_id : Option Nat
  order_qty : Int
  final_price_per_item : Rat
  status : String
  version : Int
  is_final : Bool
  superseded_by : Option Nat
deriving Repr, DecidableEq

structure SalesOrder where
  so_id : Option Nat
  client_id : Option Nat
  quote_id : Option Nat
  item_id : Option Nat
  qty_ordered : Int
  final_price_per_item : Rat
  order_status : String
  invoice_id : Option Nat
deriving Repr, DecidableEq

structure DeliveryOutbound where
  delivery_outbound_id : Option Nat
  so_id : Option Nat
  delivered_qty : Int
  status : String
deriving Repr, DecidableEq

structure Invoice where
  invoice_id : Option Nat
  so_id : Option Nat
  quote_id : Option Nat
  payment_status : String
  voided : Bool
deriving Repr, DecidableEq

structure DB where
  stock_items : List StockItem
  suppliers : List Supplier
  purchase_orders : List PurchaseOrder
  acknowledgements : List Acknowledgement
  delivery_inbound : List DeliveryInbound
  bills : List Bill
  clients : List Client
  quotes : List Quote
  sales_orders : List SalesOrder
  delivery_outbound : List DeliveryOutbound
  invoices : List Invoice
  nextId : Nat
deriving Repr, DecidableEq

def emptyDB : DB :=
  { stock_items := [], suppliers := [], purchase_orders := [],
    acknowledgements := [], delivery_inbound := [], bills := [],
    clients := [], quotes := [], sales_orders := [],
    delivery_outbound := [], invoices := [], nextId := 1 }

/-- Result of one HTTP handler call: committed state on success, or the
HTTP status code and detail of the exception (state rolled back). -/
inductive Outcome (α : Type) where
  | ok : α → DB → Outcome α
  | err : Nat → String → Outcome α
deriving Repr, DecidableEq

/-- Observable store after a call: the committed state on success, the
unchanged input state when the transaction was rolled back by an error. -/
def stateAfter {α : Type} (o : Outcome α) (db : DB) : DB :=
  match o with
  | .ok _ db' => db'
  | .err _ _ => db

def Outcome.isOk {α : Type} : Outcome α → Bool
  | .ok _ _ => true
  | .err _ _ => false

/-- Python's `str.lower()` on the ASCII action strings of the API. -/
def lowerStr (s : String) : String := String.mk (s.data.map Char.toLower)

-- ---------- insert (db.add + flush/commit: assigns the primary key) ----------

def DB.insertStockItem (db : DB) (r : StockItem) : DB × Nat :=
  let i := db.nextId
  ({ db with
       stock_items := db.stock_items ++ [{ r with item_id := some i }],
       nextId := i + 1 }, i)

def DB.insertSupplier (db : DB) (r : Supplier) : DB × Nat :=
  let i := db.nextId
  ({ db with
       suppliers := db.suppliers ++ [{ r with supplier_id := some i }],
       nextId := i + 1 }, i)

def DB.insertPurchaseOrder (db : DB) (r : PurchaseOrder) : DB × Nat :=
  let i := db.nextId
  ({ db with
       purchase_orders := db.purchase_orders ++ [{ r with po_id := some i }],
       nextId := i + 1 }, i)

def DB.insertAcknowledgement (db : DB) (r : Acknowledgement) : DB × Nat :=
  let i := db.nextId
  ({ db with
       acknowledgements := db.acknowledgements ++ [{ r with ack_id := some i }],
       nextId := i + 1 }, i)

def DB.insertDeliveryInbound (db : DB) (r : DeliveryInbound) : DB × Nat :=
  let i := db.nextId
  ({ db with
       delivery_inbound := db.delivery_inbound ++ [{ r with delivery_inbound_id := some i }],
       nextId := i + 1 }, i)

def DB.insertBill (db : DB) (r : Bill) : DB × Nat :=
  let i := db.nextId
  ({ db with
       bills := db.bills ++ [{ r with bill_id := some i }],
       nextId := i + 1 }, i)

def DB.insertClient (db : DB) (r : Client) : DB × Nat :=
  let i := db.nextId
  ({ db with
       clients := db.clients ++ [{ r with client_id := some i }],
       nextId := i + 1 }, i)

def DB.insertQuote (db : DB) (r : Quote) : DB × Nat :=
  let i := db.nextId
  ({ db with
       quotes := db.quotes ++ [{ r with quote_id := some i }],
       nextId := i + 1 }, i)

def DB.insertSalesOrder (db : DB) (r : SalesOrder) : DB × Nat :=
  let i := db.nextId
  ({ db with
       sales_orders := db.sales_orders ++ [{ r with so_id := some i }],
       nextId := i + 1 }, i)

def DB.insertDeliveryOutbound (db : DB) (r : DeliveryOutbound) : DB × Nat :=
  let i := db.nextId
  ({ db with
       delivery_outbound := db.delivery_outbound ++ [{ r with delivery_outbound_id := some i }],
       nextId := i + 1 }, i)

def DB.insertInvoice (db : DB) (r : Invoice) : DB × Nat :=
  let i := db.nextId
  ({ db with
       invoices := db.invoices ++ [{ r with invoice_id := some i }],
       nextId := i + 1 }, i)

-- ---------- queries (query(...).filter(...).first()) ----------

def findStockItem (db : DB) (iid : Option Nat) : Option StockItem :=
  db.stock_items.find? (fun r => r.item_id == iid)

def findSupplier (db : DB) (sid : Option Nat) : Option Supplier :=
  db.suppliers.find? (fun r => r.supplier_id == sid)

def findPurchaseOrder (db : DB) (pid : Option Nat) : Option PurchaseOrder :=
  db.purchase_orders.find? (fun r => r.po_id == pid)

def findBill (db : DB) (bid : Option Nat) : Option Bill :=
  db.bills.find? (fun r => r.bill_id == bid)

def findClient (db : DB) (cid : Option Nat) : Option Client :=
  db.clients.find? (fun r => r.client_id == cid)

def findQuote (db : DB) (qid : Option Nat) : Option Quote :=
  db.quotes.find? (fun r => r.quote_id == qid)

def findSalesOrder (db : DB) (sid : Option Nat) : Option SalesOrder :=
  db.sales_orders.find? (fun r => r.so_id == sid)

def findInvoice (db : DB) (iid : Option Nat) : Option Invoice :=
  db.invoices.find? (fun r => r.invoice_id == iid)

def findAckById (db : DB) (aid : Option Nat) : Option Acknowledgement :=
  db.acknowledgements.find? (fun r => r.ack_id == aid)

/-- The query `filter(po_id == ..., is_final == True).first()` on acknowledgements. -/
def findFinalAck (db : DB) (pid : Option Nat) : Option Acknowledgement :=
  db.acknowledgements.find? (fun r => r.po_id == pid && r.is_final)

/-- The query `filter(Bill.po_id == po_id).first()` on bills. -/
def findBillByPo (db : DB) (pid : Option Nat) : Option Bill :=
  db.bills.find? (fun r => r.po_id == pid)

/-- The query `filter(po_id == ..., status == "received").first()` on inbound deliveries. -/
def findReceivedDelivery (db : DB) (pid : Option Nat) : Option DeliveryInbound :=
  db.delivery_inbound.find? (fun r => r.po_id == pid && r.status == "received")

/-- The query `order_by(Acknowledgement.version.desc()).first()` restricted to one PO:
the largest version among the PO's acknowledgements (none when none exist). -/
def maxAckVersion (db : DB) (pid : Option Nat) : Option Int :=
  ((db.acknowledgements.filter (fun r => r.po_id == pid)).map (fun r => r.version)).max?

/-- The aggregate `coalesce(sum(DeliveryOutbound.delivered_qty), 0)` over one SO. -/
def sumDelivered (db : DB) (sid : Option Nat) : Int :=
  ((db.delivery_outbound.filter (fun r => r.so_id == sid)).map
    (fun r => r.delivered_qty)).sum

-- ---------- inventory routes (src/app/routes/inventory.py) ----------

inductive AdjustmentType where
  | increase
  | decrease
deriving Repr, DecidableEq

/-- POST /inventory/items (create_inventory_item). -/
def create_inventory_item (db : DB) (item_name : String) (item_qty : Int)
    (rate : Rat) (safety_stock : Int) : Outcome Nat :=
  let (db1, i) := db.insertStockItem
    { item_id := none, item_name := item_name, item_qty := item_qty,
      rate := rate, safety_stock := safety_stock }
  .ok i db1

/-- POST /inventory/items/\x7bitem_id\x7d/adjust (adjust_inventory_item). -/
def adjust_inventory_item (db : DB) (item_id : Nat)
    (adjustment_type : AdjustmentType) (quantity : Int) : Outcome Int :=
  match findStockItem db (some item_id) with
  | none => .err 404 "Item not found"
  | some item =>
    let delta := match adjustment_type with
      | .increase => quantity
      | .decrease => -quantity
    let new_qty := item.item_qty + delta
    if new_qty < 0 then
      .err 400 "Stock adjustment would result in negative inventory"
    else
      let db1 := { db with stock_items := db.stock_items.map (fun (r : StockItem) =>
        if r.item_id == some item_id then { r with item_qty := new_qty } else r) }
      .ok new_qty db1

-- ---------- procurement routes (src/app/routes/procurement.py) ----------

/-- POST /procurement/suppliers (create_supplier). -/
def create_supplier (db : DB) (supplier_name : String) (discount_offered : Rat) :
    Outcome Nat :=
  let (db1, i) := db.insertSupplier
    { supplier_id := none, supplier_name := supplier_name,
      account_balance := 0, discount_offered := discount_offered }
  .ok i db1

/-- POST /procurement/purchase-orders (create_po). -/
def create_po (db : DB) (supplier_id item_id : Nat) (qty_ordered : Int)
    (expected_price_per_item : Rat) : Outcome Nat :=
  match findSupplier db (some supplier_id) with
  | none => .err 400 "Supplier not found"
  | some _ =>
    match findStockItem db (some item_id) with
    | none => .err 400 "Stock item not found"
    | some _ =>
      let (db1, i) := db.insertPurchaseOrder
        { po_id := none, supplier_id := some supplier_id,
          item_id := some item_id, qty_ordered := qty_ordered,
          final_price_per_item := some expected_price_per_item,
          po_status := "pending_price_negotiation" }
      .ok i db1

/-- POST /procurement/purchase-orders/\x7bpo_id\x7d/acknowledge
(acknowledge_po).  `final_price_per_item` is `Optional` in
`POAcknowledgeRequest`, hence `Option Rat` here. -/
def acknowledge_po (db : DB) (po_id : Nat) (final_price_per_item : Option Rat)
    (action : String) : Outcome Nat :=
  match findPurchaseOrder db (some po_id) with
  | none => .err 404 "PO not found"
  | some po =>
    if po.po_status != "pending_price_negotiation" then
      .err 400 "PO cannot be acknowledged in its current state"
    else
      let next_version : Int := match maxAckVersion db (some po_id) with
        | none => 1
        | some v => v + 1
      let act := lowerStr action
      if !(act == "accepted" || act == "rejected" || act == "revised") then
        .err 400 "Invalid ACK action"
      else
        -- transient object: `ack.ack_id` is unassigned (None) until flush
        let ack : Acknowledgement :=
          { ack_id := none, po_id := some po_id,
            final_price_per_item := final_price_per_item,
            status := "proposed", is_final := false, version := next_version }
        if act == "accepted" then
          let ack := { ack with status := "accepted", is_final := true }
          -- bulk update: filter `ack_id != ack.ack_id` with `ack.ack_id`
          -- still None compiles to IS NOT NULL, matching every stored row
          let db1 := { db with acknowledgements := db.acknowledgements.map (fun (a : Acknowledgement) =>
            if a.po_id == some po_id && a.ack_id != ack.ack_id then
              { a with status := "superseded", is_final := false }
            else a) }
          let db2 := { db1 with purchase_orders := db1.purchase_orders.map (fun (p : PurchaseOrder) =>
            if p.po_id == some po_id then
              { p with final_price_per_item := final_price_per_item,
                       po_status := "acknowledged" }
            else p) }
          let (db3, _) := db2.insertDeliveryInbound
            { delivery_inbound_id := none, po_id := some po_id, status := "in_transit" }
          let (db4, ackId) := db3.insertAcknowledgement ack
          .ok ackId db4
        else if act == "rejected" then
          let (db1, ackId) := db.insertAcknowledgement { ack with status := "rejected" }
          .ok ackId db1
        else
          -- "revised": status stays "proposed", PO remains negotiable
          let (db1, ackId) := db.insertAcknowledgement { ack with status := "proposed" }
          .ok ackId db1

/-- POST /procurement/purchase-orders/\x7bpo_id\x7d/receive (receive_po). -/
def receive_po (db : DB) (po_id : Nat) : Outcome Int :=
  match findPurchaseOrder db (some po_id) with
  | none => .err 404 "PO not found"
  | some po =>
    if po.po_status != "acknowledged" then
      .err 400 "PO must be acknowledged before receiving goods"
    else
      match findStockItem db po.item_id with
      | none => .err 404 "Stock item not found"
      | some item =>
        match findReceivedDelivery db (some po_id) with
        | some _ => .err 400 "Goods already received for this PO"
        | none =>
          -- a NEW DeliveryInbound row is created with status "received";
          -- the "in_transit" row opened at acknowledgement is not updated
          let (db1, _) := db.insertDeliveryInbound
            { delivery_inbound_id := none, po_id := some po_id, status := "received" }
          let db2 := { db1 with stock_items := db1.stock_items.map (fun (r : StockItem) =>
            if r.item_id == po.item_id then
              { r with item_qty := item.item_qty + po.qty_ordered }
            else r) }
          let db3 := { db2 with purchase_orders := db2.purchase_orders.map (fun (p : PurchaseOrder) =>
            if p.po_id == some po_id then { p with po_status := "received" } else p) }
          .ok (item.item_qty + po.qty_ordered) db3

/-- POST /procurement/bills (create_bill). -/
def create_bill (db : DB) (po_id : Nat) : Outcome Nat :=
  match findPurchaseOrder db (some po_id) with
  | none => .err 404 "PO not found"
  | some po =>
    if po.po_status != "received" then
      .err 400 "Bill can only be created after PO is received"
    else
      match findBillByPo db (some po_id) with
      | some _ => .err 400 "Bill already exists for this PO"
      | none =>
        match findFinalAck db (some po_id) with
        | none => .err 400 "Final ACK not found for this PO"
        | some final_ack =>
          match findSupplier db po.supplier_id with
          | none => .err 404 "Supplier not found"
          | some supplier =>
            -- `po.qty_ordered * final_ack.final_price_per_item`: an
            -- unhandled TypeError (HTTP 500) when the price is NULL
            match final_ack.final_price_per_item with
            | none => .err 500 "TypeError"
            | some price =>
              let bill_amount := (po.qty_ordered : Rat) * price
              let db1 := { db with suppliers := db.suppliers.map (fun (s : Supplier) =>
                if s.supplier_id == po.supplier_id then
                  { s with account_balance := supplier.account_balance + bill_amount }
                else s) }
              let (db2, billId) := db1.insertBill
                { bill_id := none, po_id := some po_id, ack_id := final_ack.ack_id,
                  payment_status := "pending", payment_reference := none }
              .ok billId db2

/-- POST /procurement/bills/\x7bbill_id\x7d/pay (pay_bill). -/
def pay_bill (db : DB) (bill_id : Nat) (payment_reference : String) : Outcome Nat :=
  match findBill db (some bill_id) with
  | none => .err 404 "Bill not found"
  | some bill =>
    if bill.payment_status == "paid" then
      .err 400 "Bill already paid"
    else
      -- the PO/supplier/ACK lookups use .first() without a None check:
      -- a missing row raises AttributeError (HTTP 500)
      match findPurchaseOrder db bill.po_id with
      | none => .err 500 "AttributeError"
      | some po =>
        match findSupplier db po.supplier_id with
        | none => .err 500 "AttributeError"
        | some supplier =>
          match findAckById db bill.ack_id with
          | none => .err 500 "AttributeError"
          | some final_ack =>
            match final_ack.final_price_per_item with
            | none => .err 500 "TypeError"
            | some price =>
              let bill_amount := (po.qty_ordered : Rat) * price
              let db1 := { db with bills := db.bills.map (fun (b : Bill) =>
                if b.bill_id == some bill_id then
                  { b with payment_status := "paid",
                           payment_reference := some payment_reference }
                else b) }
              let db2 := { db1 with suppliers := db1.suppliers.map (fun (s : Supplier) =>
                if s.supplier_id == po.supplier_id then
                  { s with account_balance := supplier.account_balance - bill_amount }
                else s) }
              .ok bill_id db2

-- ---------- sales routes (src/app/routes/sales.py) ----------

/-- POST /sales/clients (create_client). -/
def create_client (db : DB) (client_name : String) : Outcome Nat :=
  let (db1, i) := db.insertClient
    { client_id := none, client_name := client_name, account_balance := 0 }
  .ok i db1

/-- POST /sales/quotes (create_quote): model defaults status "sent",
version 1, is_final False, superseded_by NULL. -/
def create_quote (db : DB) (client_id item_id : Nat) (order_qty : Int)
    (final_price_per_item : Rat) : Outcome Nat :=
  let (db1, i) := db.insertQuote
    { quote_id := none, client_id := some client_id, item_id := some item_id,
      order_qty := order_qty, final_price_per_item := final_price_per_item,
      status := "sent", version := 1, is_final := false, superseded_by := none }
  .ok i db1

/-- POST /sales/quotes/\x7bquote_id\x7d/revise (revise_quote).
The source reads `new.quote_id` BEFORE `db.add(new)`: the transient
record's primary key is unassigned (None) at that point, so the value
written into `old.superseded_by` is the pre-flush id, not the id the
new row receives at commit. -/
def revise_quote (db : DB) (quote_id : Nat) (revised_price_per_item : Rat) :
    Outcome Nat :=
  match findQuote db (some quote_id) with
  | none => .err 404 "Quote not found"
  | some old =>
    if old.is_final then
      .err 400 "Final quote cannot be revised"
    else
      let new : Quote :=
        { quote_id := none, client_id := old.client_id, item_id := old.item_id,
          order_qty := old.order_qty,
          final_price_per_item := revised_price_per_item,
          status := "revised", version := old.version + 1, is_final := false,
          superseded_by := none }
      let db1 := { db with quotes := db.quotes.map (fun (q : Quote) =>
        if q.quote_id == some quote_id then
          { q with status := "superseded", superseded_by := new.quote_id }
        else q) }
      let (db2, newId) := db1.insertQuote new
      .ok newId db2

/-- POST /sales/quotes/\x7bquote_id\x7d/accept (accept_quote). -/
def accept_quote (db : DB) (quote_id : Nat) : Outcome (Nat × Nat) :=
  match findQuote db (some quote_id) with
  | none => .err 404 "Quote not found"
  | some quote =>
    if quote.status == "accepted" then
      .err 400 "Quote already accepted"
    else if quote.is_final then
      .err 400 "Quote already finalized"
    else
      match findStockItem db quote.item_id with
      | none => .err 400 "Insufficient inventory"
      | some item =>
        if item.item_qty < quote.order_qty then
          .err 400 "Insufficient inventory"
        else
          -- supersede all other versions (same client+item, not final)
          let db1 := { db with quotes := db.quotes.map (fun (q : Quote) =>
            if q.client_id == quote.client_id && q.item_id == quote.item_id
                && q.is_final == false && q.quote_id != quote.quote_id then
              { q with status := "superseded" }
            else q) }
          let db2 := { db1 with quotes := db1.quotes.map (fun (q : Quote) =>
            if q.quote_id == some quote_id then
              { q with is_final := true, status := "accepted" }
            else q) }
          let db3 := { db2 with stock_items := db2.stock_items.map (fun (r : StockItem) =>
            if r.item_id == quote.item_id then
              { r with item_qty := item.item_qty - quote.order_qty }
            else r) }
          let (db4, soId) := db3.insertSalesOrder
            { so_id := none, client_id := quote.client_id,
              quote_id := quote.quote_id, item_id := quote.item_id,
              qty_ordered := quote.order_qty,
              final_price_per_item := quote.final_price_per_item,
              order_status := "confirmed", invoice_id := none }
          let (db5, invId) := db4.insertInvoice
            { invoice_id := none, so_id := some soId, quote_id := quote.quote_id,
              payment_status := "pending", voided := false }
          let db6 := { db5 with sales_orders := db5.sales_orders.map (fun (o : SalesOrder) =>
            if o.so_id == some soId then { o with invoice_id := some invId } else o) }
          match findClient db6 quote.client_id with
          | none => .err 500 "AttributeError"
          | some client =>
            let db7 := { db6 with clients := db6.clients.map (fun (c : Client) =>
              if c.client_id == quote.client_id then
                { c with account_balance := client.account_balance
                    + (quote.order_qty : Rat) * quote.final_price_per_item }
              else c) }
            .ok (quote_id, soId) db7

/-- POST /sales/orders (create_sales_order): direct order, no quote. -/
def create_sales_order (db : DB) (client_id item_id : Nat) (qty_ordered : Int)
    (final_price_per_item : Rat) : Outcome Nat :=
  match findStockItem db (some item_id) with
  | none => .err 400 "Insufficient inventory"
  | some item =>
    if item.item_qty < qty_ordered then
      .err 400 "Insufficient inventory"
    else
      let db1 := { db with stock_items := db.stock_items.map (fun (r : StockItem) =>
        if r.item_id == some item_id then
          { r with item_qty := item.item_qty - qty_ordered }
        else r) }
      let (db2, soId) := db1.insertSalesOrder
        { so_id := none, client_id := some client_id, quote_id := none,
          item_id := some item_id, qty_ordered := qty_ordered,
          final_price_per_item := final_price_per_item,
          order_status := "confirmed", invoice_id := none }
      let (db3, invId) := db2.insertInvoice
        { invoice_id := none, so_id := some soId, quote_id := none,
          payment_status := "pending", voided := false }
      let db4 := { db3 with sales_orders := db3.sales_orders.map (fun (o : SalesOrder) =>
        if o.so_id == some soId then { o with invoice_id := some invId } else o) }
      match findClient db4 (some client_id) with
      | none => .err 500 "AttributeError"
      | some client =>
        let db5 := { db4 with clients := db4.clients.map (fun (c : Client) =>
          if c.client_id == some client_id then
            { c with account_balance := client.account_balance
                + (qty_ordered : Rat) * final_price_per_item }
          else c) }
        .ok soId db5

/-- POST /sales/orders/\x7bso_id\x7d/deliver (deliver_sales_order). -/
def deliver_sales_order (db : DB) (so_id : Nat) (delivered_qty : Int) :
    Outcome Nat :=
  match findSalesOrder db (some so_id) with
  | none => .err 404 "SO not found"
  | some so =>
    if so.order_status == "cancelled" then
      .err 400 "Cancelled order cannot be delivered"
    else if so.order_status == "delivered" then
      .err 400 "Order already fully delivered"
    else
      let total_delivered := sumDelivered db (some so_id)
      if total_delivered + delivered_qty > so.qty_ordered then
        .err 400 "Delivered quantity exceeds ordered quantity"
      else
        let newStatus :=
          if total_delivered + delivered_qty < so.qty_ordered then
            "partially_delivered"
          else
            "delivered"
        let db1 := { db with sales_orders := db.sales_orders.map (fun (o : SalesOrder) =>
          if o.so_id == some so_id then { o with order_status := newStatus } else o) }
        let (db2, did) := db1.insertDeliveryOutbound
          { delivery_outbound_id := none, so_id := some so_id,
            delivered_qty := delivered_qty, status := "delivered" }
        .ok did db2

/-- POST /sales/orders/\x7bso_id\x7d/cancel (cancel_sales_order).
`item.item_qty += ...` with `item` possibly None would raise
AttributeError (HTTP 500). -/
def cancel_sales_order (db : DB) (so_id : Nat) : Outcome Unit :=
  match findSalesOrder db (some so_id) with
  | none => .err 404 "SO not found"
  | some so =>
    if so.order_status == "delivered" || so.order_status == "partially_delivered" then
      .err 400 "Cannot cancel delivered order"
    else
      match findStockItem db so.item_id with
      | none => .err 500 "AttributeError"
      | some item =>
        let db1 := { db with stock_items := db.stock_items.map (fun (r : StockItem) =>
          if r.item_id == so.item_id then
            { r with item_qty := item.item_qty + so.qty_ordered }
          else r) }
        let db2 := { db1 with sales_orders := db1.sales_orders.map (fun (o : SalesOrder) =>
          if o.so_id == some so_id then { o with order_status := "cancelled" } else o) }
        .ok () db2

/-- POST /sales/invoices/\x7binvoice_id\x7d/void (void_invoice). -/
def void_invoice (db : DB) (invoice_id : Nat) : Outcome Unit :=
  match findInvoice db (some invoice_id) with
  | none => .err 404 "Invoice not found"
  | some inv =>
    if inv.payment_status == "paid" then
      .err 400 "Paid invoice cannot be voided"
    else
      let db1 := { db with invoices := db.invoices.map (fun (v : Invoice) =>
        if v.invoice_id == some invoice_id then
          { v with voided := true, payment_status := "voided" }
        else v) }
      .ok () db1

-- ---------- the mutating API surface as one operation type ----------

/-- One mutating HTTP call with its payload. -/
inductive Op where
  | createItem (item_name : String) (item_qty : Int) (rate : Rat) (safety_stock : Int)
  | adjust (item_id : Nat) (adjustment_type : AdjustmentType) (quantity : Int)
  | createSupplier (supplier_name : String) (discount_offered : Rat)
  | createPO (supplier_id item_id : Nat) (qty_ordered : Int) (expected_price : Rat)
  | acknowledgePO (po_id : Nat) (final_price_per_item : Option Rat) (action : String)
  | receivePO (po_id : Nat)
  | createBill (po_id : Nat)
  | payBill (bill_id : Nat) (payment_reference : String)
  | createClient (client_name : String)
  | createQuote (client_id item_id : Nat) (order_qty : Int) (price : Rat)
  | reviseQuote (quote_id : Nat) (revised_price : Rat)
  | acceptQuote (quote_id : Nat)
  | createSO (client_id item_id : Nat) (qty_ordered : Int) (price : Rat)
  | deliverSO (so_id : Nat) (delivered_qty : Int)
  | cancelSO (so_id : Nat)
  | voidInvoice (invoice_id : Nat)
deriving Repr, DecidableEq

/-- The observable store after one call (errors roll back). -/
def Op.step (op : Op) (db : DB) : DB :=
  match op with
  | .createItem n q r s => stateAfter (create_inventory_item db n q r s) db
  | .adjust i t q => stateAfter (adjust_inventory_item db i t q) db
  | .createSupplier n d => stateAfter (create_supplier db n d) db
  | .createPO s i q p => stateAfter (create_po db s i q p) db
  | .acknowledgePO p pr a => stateAfter (acknowledge_po db p pr a) db
  | .receivePO p => stateAfter (receive_po db p) db
  | .createBill p => stateAfter (create_bill db p) db
  | .payBill b r => stateAfter (pay_bill db b r) db
  | .createClient n => stateAfter (create_client db n) db
  | .createQuote c i q p => stateAfter (create_quote db c i q p) db
  | .reviseQuote q p => stateAfter (revise_quote db q p) db
  | .acceptQuote q => stateAfter (accept_quote db q) db
  | .createSO c i q p => stateAfter (create_sales_order db c i q p) db
  | .deliverSO s q => stateAfter (deliver_sales_order db s q) db
  | .cancelSO s => stateAfter (cancel_sales_order db s) db
  | .voidInvoice i => stateAfter (void_invoice db i) db

/-- The pydantic payload constraints of the request schemas
(conint/confloat bounds) for each call. -/
def Op.valid : Op → Prop
  | .createItem _ q _ s => 0 ≤ q ∧ 0 ≤ s
  | .adjust _ _ q => 0 < q
  | .createSupplier _ d => 0 ≤ d ∧ d ≤ 100
  | .createPO _ _ q p => 0 < q ∧ 0 < p
  | .acknowledgePO _ pr _ => match pr with
    | none => True
    | some p => 0 < p
  | .receivePO _ => True
  | .createBill _ => True
  | .payBill _ _ => True
  | .createClient _ => True
  | .createQuote _ _ q p => 0 < q ∧ 0 < p
  | .reviseQuote _ p => 0 < p
  | .acceptQuote _ => True
  | .createSO _ _ q p => 0 < q ∧ 0 < p
  | .deliverSO _ q => 0 < q
  | .cancelSO _ => True
  | .voidInvoice _ => True

-- ---------- generic list lemmas for the row-update pattern ----------

/-- A `find?` commutes with a row update that does not change the looked-up
key (the bulk-update / single-row-update pattern of the handlers). -/
theorem find?_map_of_id {α : Type} (l : List α) (g : α → α) (p : α → Bool)
    (hg : ∀ a, p (g a) = p a) :
    (l.map g).find? p = (l.find? p).map g := by
  have hpg : (p ∘ g) = p := funext hg
  rw [List.find?_map, hpg]

/-- `find?` on an unchanged prefix plus an appended row. -/
theorem find?_append_or {α : Type} (l1 l2 : List α) (p : α → Bool) :
    (l1 ++ l2).find? p = (l1.find? p).or (l2.find? p) :=
  List.find?_append

-- ---------- instrumentation used by the theorems ----------

/-- Account balance of the supplier as read back from the store. -/
def supplierBalance (db : DB) (sid : Nat) : Rat :=
  match findSupplier db (some sid) with
  | some s => s.account_balance
  | none => 0

/-- The quantity invariants threaded through every operation: no stock item
is negative, and every stored order line carries a non-negative quantity
(orders are only ever created from `conint(gt=0)` payloads). -/
def QtyInv (db : DB) : Prop :=
  (∀ r ∈ db.stock_items, 0 ≤ r.item_qty) ∧
  (∀ o ∈ db.sales_orders, 0 ≤ o.qty_ordered) ∧
  (∀ p ∈ db.purchase_orders, 0 ≤ p.qty_ordered) ∧
  (∀ q ∈ db.quotes, 0 ≤ q.order_qty)

-- ---------- C10: cancel semantics ----------

/-- C10: cancelling a SalesOrder is rejected with HTTP 400 exactly when its
status is `delivered` or `partially_delivered`; from any other status —
including `cancelled` — the cancel succeeds, adds qty_ordered back onto the
StockItem quantity, and sets the status to `cancelled` (so a repeated cancel
adds the quantity again). -/
theorem cancel_sales_order_spec (db : DB) (so_id : Nat) (so : SalesOrder)
    (item : StockItem)
    (hso : findSalesOrder db (some so_id) = some so)
    (hit : findStockItem db so.item_id = some item) :
    (so.order_status = "delivered" ∨ so.order_status = "partially_delivered" →
      cancel_sales_order db so_id = .err 400 "Cannot cancel delivered order" ∧
      stateAfter (cancel_sales_order db so_id) db = db) ∧
    (so.order_status ≠ "delivered" → so.order_status ≠ "partially_delivered" →
      ∃ db', cancel_sales_order db so_id = .ok () db' ∧
        (findStockItem db' so.item_id).map (fun r => r.item_qty)
          = some (item.item_qty + so.qty_ordered) ∧
        (findSalesOrder db' (some so_id)).map (fun o => o.order_status)
          = some "cancelled") := by
  unfold findSalesOrder at hso
  unfold findStockItem at hit
  constructor
  · intro hst
    have hcond : (so.order_status == "delivered"
        || so.order_status == "partially_delivered") = true := by
      rcases hst with h | h <;> simp [h]
    unfold cancel_sales_order findSalesOrder
    rw [hso]
    simp [hcond, stateAfter]
  · intro h1 h2
    have hcond : (so.order_status == "delivered"
        || so.order_status == "partially_delivered") = false := by
      simp [h1, h2]
    have hpq : item.item_id = so.item_id := by
      simpa using List.find?_some hit
    have hpq2 : so.so_id = some so_id := by
      simpa using List.find?_some hso
    unfold cancel_sales_order findSalesOrder findStockItem
    rw [hso]
    dsimp only
    rw [hcond]
    simp only [Bool.false_eq_true, if_false]
    rw [hit]
    dsimp only
    refine ⟨_, rfl, ?_, ?_⟩
    · show ((db.stock_items.map _).find? _).map _ = _
      rw [find?_map_of_id _ _ _ (by
        intro a
        split <;> rfl)]
      rw [hit]
      simp [hpq]
    · show ((db.sales_orders.map _).find? _).map _ = _
      rw [find?_map_of_id _ _ _ (by
        intro a
        split <;> rfl)]
      rw [hso]
      simp [hpq2]

/-- A store built by the API: client 1, item 2 (qty 10), a direct sales
order 3 for 4 units (stock 10 → 6), already cancelled once (stock back
to 10, status "cancelled"). -/
def dbDemoCancel : DB :=
  Op.step (.cancelSO 3) (Op.step (.createSO 1 2 4 5)
    (Op.step (.createItem "i" 10 1 0) (Op.step (.createClient "c") emptyDB)))

def soDemoCancel : SalesOrder :=
  { so_id := some 3, client_id := some 1, quote_id := none, item_id := some 2,
    qty_ordered := 4, final_price_per_item := 5, order_status := "cancelled",
    invoice_id := some 4 }

def itemDemoCancel : StockItem :=
  { item_id := some 2, item_name := "i", item_qty := 10, rate := 1,
    safety_stock := 0 }

/-- C10 witness: cancelling the already-cancelled order 3 succeeds again and
adds its 4 units onto the stock a second time (10 → 14). -/
theorem cancel_sales_order_spec_witness :
    ∃ db', cancel_sales_order dbDemoCancel 3 = .ok () db' ∧
      (findStockItem db' soDemoCancel.item_id).map (fun r => r.item_qty)
        = some (itemDemoCancel.item_qty + soDemoCancel.qty_ordered) ∧
      (findSalesOrder db' (some 3)).map (fun o => o.order_status)
        = some "cancelled" :=
  (cancel_sales_order_spec dbDemoCancel 3 soDemoCancel itemDemoCancel
    (by decide) (by decide)).2 (by decide) (by decide)

-- ---------- C8: insufficient inventory is rejected and is a no-op ----------

/-- C8: accepting a Quote (and likewise creating a direct SalesOrder) when
the StockItem quantity is below the ordered quantity fails with HTTP 400
"Insufficient inventory" and leaves the store untouched: no SalesOrder, no
Invoice, no inventory or balance mutation. -/
theorem insufficient_inventory_rejected (db : DB) (quote_id : Nat)
    (quote : Quote) (item : StockItem)
    (hq : findQuote db (some quote_id) = some quote)
    (h1 : quote.status ≠ "accepted") (h2 : quote.is_final = false)
    (hit : findStockItem db quote.item_id = some item)
    (hlt : item.item_qty < quote.order_qty) :
    accept_quote db quote_id = .err 400 "Insufficient inventory" ∧
    stateAfter (accept_quote db quote_id) db = db ∧
    (∀ (client_id item_id : Nat) (q : Int) (pr : Rat) (item' : StockItem),
      findStockItem db (some item_id) = some item' → item'.item_qty < q →
      create_sales_order db client_id item_id q pr
          = .err 400 "Insufficient inventory" ∧
      stateAfter (create_sales_order db client_id item_id q pr) db = db) := by
  unfold findQuote at hq
  unfold findStockItem at hit
  have hs : (quote.status == "accepted") = false := by simp [h1]
  have e : accept_quote db quote_id = .err 400 "Insufficient inventory" := by
    unfold accept_quote findQuote findStockItem
    rw [hq]
    dsimp only
    rw [hs, h2]
    simp only [Bool.false_eq_true, if_false]
    rw [hit]
    dsimp only
    rw [if_pos hlt]
  refine ⟨e, by rw [e]; rfl, ?_⟩
  intro client_id item_id q pr item' hit' hlt'
  unfold findStockItem at hit'
  have e' : create_sales_order db client_id item_id q pr
      = .err 400 "Insufficient inventory" := by
    unfold create_sales_order findStockItem
    rw [hit']
    dsimp only
    rw [if_pos hlt']
  exact ⟨e', by rw [e']; rfl⟩

/-- Client 1, item 2 with only 3 on hand, quote 3 asking for 5. -/
def dbDemoShort : DB :=
  Op.step (.createQuote 1 2 5 6)
    (Op.step (.createItem "i" 3 1 0) (Op.step (.createClient "c") emptyDB))

def quoteDemoShort : Quote :=
  { quote_id := some 3, client_id := some 1, item_id := some 2, order_qty := 5,
    final_price_per_item := 6, status := "sent", version := 1,
    is_final := false, superseded_by := none }

def itemDemoShort : StockItem :=
  { item_id := some 2, item_name := "i", item_qty := 3, rate := 1,
    safety_stock := 0 }

/-- C8 witness: accepting quote 3 (5 wanted, 3 on hand) fails with 400 and
leaves the store exactly as it was. -/
theorem insufficient_inventory_rejected_witness :
    accept_quote dbDemoShort 3 = .err 400 "Insufficient inventory" ∧
    stateAfter (accept_quote dbDemoShort 3) dbDemoShort = dbDemoShort ∧
    (∀ (client_id item_id : Nat) (q : Int) (pr : Rat) (item' : StockItem),
      findStockItem dbDemoShort (some item_id) = some item' →
      item'.item_qty < q →
      create_sales_order dbDemoShort client_id item_id q pr
          = .err 400 "Insufficient inventory" ∧
      stateAfter (create_sales_order dbDemoShort client_id item_id q pr)
        dbDemoShort = dbDemoShort) :=
  insufficient_inventory_rejected dbDemoShort 3 quoteDemoShort itemDemoShort
    (by decide) (by decide) (by decide) (by decide) (by decide)

-- ---------- concrete stores exercising the negotiation endpoints ----------

/-- Client 1, item 2 (qty 10), then two independent quotes 3 and 4 for the
same client+item pair, then both accepted in turn. -/
def dbTwoFinalQuotes : DB :=
  Op.step (.acceptQuote 4) (Op.step (.acceptQuote 3)
    (Op.step (.createQuote 1 2 1 5) (Op.step (.createQuote 1 2 1 5)
      (Op.step (.createItem "i" 10 1 0) (Op.step (.createClient "c") emptyDB)))))

/-- Client 1, item 2, quote 3, then quote 3 revised twice over. -/
def dbDupVersions : DB :=
  Op.step (.reviseQuote 3 7) (Op.step (.reviseQuote 3 6)
    (Op.step (.createQuote 1 2 1 5)
      (Op.step (.createItem "i" 10 1 0) (Op.step (.createClient "c") emptyDB))))

/-- Client 1, item 2, quote 3, revised once (to quote 4). -/
def dbRevised : DB :=
  Op.step (.reviseQuote 3 6)
    (Op.step (.createQuote 1 2 1 5)
      (Op.step (.createItem "i" 10 1 0) (Op.step (.createClient "c") emptyDB)))

/-- Supplier 1, item 2, PO 3 for 50 units, acknowledged accepted at price 9
(opens delivery 4, acknowledgement 5), then received (delivery 6). -/
def dbReceived : DB :=
  Op.step (.receivePO 3) (Op.step (.acknowledgePO 3 (some 9) "accepted")
    (Op.step (.createPO 1 2 50 10)
      (Op.step (.createItem "i" 0 1 0) (Op.step (.createSupplier "s" 0) emptyDB))))

/-- Supplier 1, item 2, PO 3 acknowledged `accepted` with the price omitted
(the request schema allows a null price). -/
def dbAckNoPrice : DB :=
  Op.step (.acknowledgePO 3 none "accepted")
    (Op.step (.createPO 1 2 50 10)
      (Op.step (.createItem "i" 0 1 0) (Op.step (.createSupplier "s" 0) emptyDB)))

-- ---------- C2: two final quotes for the same client+item pair ----------

/-- C2: `accept_quote` never checks whether another final quote exists for
the same client+item pair, and its bulk supersede skips final records: after
creating quotes 3 and 4 for the same pair and accepting both, two distinct
quotes of the pair hold `is_final = true`, violating the at-most-one-final
invariant. -/
theorem two_final_quotes_same_pair :
    (findQuote dbTwoFinalQuotes (some 3)).map
        (fun q => (q.is_final, q.client_id, q.item_id))
      = some (true, some 1, some 2) ∧
    (findQuote dbTwoFinalQuotes (some 4)).map
        (fun q => (q.is_final, q.client_id, q.item_id))
      = some (true, some 1, some 2) := by decide

-- ---------- C3: duplicate versions in one revision chain ----------

/-- C3 counterexample: revising quote 3 twice (legal, since `revise_quote`
only rejects final quotes, not superseded ones) creates quotes 4 and 5 of
the same client+item chain that BOTH carry version 2: versions are not
strictly greater than every existing version for the parent. -/
theorem duplicate_quote_version :
    (findQuote dbDupVersions (some 4)).map
        (fun q => (q.version, q.client_id, q.item_id))
      = some (2, some 1, some 2) ∧
    (findQuote dbDupVersions (some 5)).map
        (fun q => (q.version, q.client_id, q.item_id))
      = some (2, some 1, some 2) := by decide

-- ---------- C4: receive does not mark the in_transit delivery ----------

/-- C4 counterexample: after acknowledge + receive on PO 3, the
DeliveryInbound opened at acknowledgement (id 4) still has status
"in_transit": `receive_po` records a brand-new `received` row (id 6)
instead of marking the existing one. -/
theorem receive_keeps_in_transit_delivery :
    dbReceived.delivery_inbound =
      [{ delivery_inbound_id := some 4, po_id := some 3, status := "in_transit" },
       { delivery_inbound_id := some 6, po_id := some 3, status := "received" }] := by
  decide

-- ---------- C5: the forward pointer is left NULL ----------

/-- C5: `revise_quote` assigns `old.superseded_by = new.quote_id` before the
new row is flushed, when its primary key is still unassigned: after revising
quote 3 into quote 4, the old quote is `superseded` but its forward pointer
is NULL, not `some 4`. -/
theorem revise_leaves_null_forward_pointer :
    (findQuote dbRevised (some 3)).map (fun q => (q.status, q.superseded_by))
      = some ("superseded", none) ∧
    (findQuote dbRevised (some 4)).map
        (fun q => (q.version, q.final_price_per_item, q.status))
      = some (2, 6, "revised") := by decide

-- ---------- C9: accept with omitted price leaves a NULL price ----------

/-- C9 counterexample: `POAcknowledgeRequest.final_price_per_item` is
Optional; acknowledging PO 3 with action "accepted" and no price succeeds,
leaving the PO `acknowledged` with a NULL `final_price_per_item` and a final
Acknowledgement whose price is NULL — and bill creation after receipt then
multiplies by NULL (an unhandled TypeError / HTTP 500). -/
theorem acknowledged_with_null_price :
    (findPurchaseOrder dbAckNoPrice (some 3)).map
        (fun p => (p.po_status, p.final_price_per_item))
      = some ("acknowledged", none) ∧
    (findFinalAck dbAckNoPrice (some 3)).map (fun a => a.final_price_per_item)
      = some none ∧
    create_bill (Op.step (.receivePO 3) dbAckNoPrice) 3 = .err 500 "TypeError" := by
  decide

-- ---------- C9 (amended): accept with a price locks that price ----------

/-- C9 amended: when the acknowledge request carries a concrete price,
accepting from `pending_price_negotiation` locks exactly that price on the
PO, transitions it to `acknowledged`, and the accepted Acknowledgement is
final with the same concrete (non-NULL) price. -/
theorem acknowledge_accept_locks_price (db : DB) (po_id : Nat) (p : Rat)
    (po : PurchaseOrder)
    (hpo : findPurchaseOrder db (some po_id) = some po)
    (hst : po.po_status = "pending_price_negotiation") :
    ∃ ackId db', acknowledge_po db po_id (some p) "accepted" = .ok ackId db' ∧
      (findPurchaseOrder db' (some po_id)).map
          (fun r => (r.po_status, r.final_price_per_item))
        = some ("acknowledged", some p) ∧
      ∃ a ∈ db'.acknowledgements, a.ack_id = some ackId ∧ a.is_final = true ∧
        a.status = "accepted" ∧ a.final_price_per_item = some p := by
  unfold findPurchaseOrder at hpo
  have hpq : po.po_id = some po_id := by simpa using List.find?_some hpo
  have hguard : (po.po_status != "pending_price_negotiation") = false := by
    simp [hst]
  unfold acknowledge_po findPurchaseOrder
  rw [hpo]
  dsimp only
  rw [hguard]
  simp only [Bool.false_eq_true, if_false]
  rw [show (!(lowerStr "accepted" == "accepted" || lowerStr "accepted" == "rejected"
      || lowerStr "accepted" == "revised")) = false from rfl]
  simp only [Bool.false_eq_true, if_false]
  rw [show (lowerStr "accepted" == "accepted") = true from rfl]
  simp only [if_true]
  refine ⟨_, _, rfl, ?_, ?_⟩
  · show ((db.purchase_orders.map _).find? _).map _ = _
    rw [find?_map_of_id _ _ _ (by
      intro a
      split <;> rfl)]
    rw [hpo]
    simp [hpq]
  · refine ⟨_, List.mem_append_right _ (List.mem_singleton.mpr rfl), rfl, rfl, rfl, rfl⟩

/-- Supplier 1, item 2, PO 3 for 50 at expected price 10, still pending. -/
def dbPendingPO : DB :=
  Op.step (.createPO 1 2 50 10)
    (Op.step (.createItem "i" 0 1 0) (Op.step (.createSupplier "s" 0) emptyDB))

def poDemoPending : PurchaseOrder :=
  { po_id := some 3, supplier_id := some 1, item_id := some 2,
    qty_ordered := 50, final_price_per_item := some 10,
    po_status := "pending_price_negotiation" }

/-- C9 witness: accepting PO 3 at price 9 locks price 9, moves the PO to
`acknowledged`, and leaves a final accepted Acknowledgement priced 9. -/
theorem acknowledge_accept_locks_price_witness :
    ∃ ackId db', acknowledge_po dbPendingPO 3 (some 9) "accepted" = .ok ackId db' ∧
      (findPurchaseOrder db' (some 3)).map
          (fun r => (r.po_status, r.final_price_per_item))
        = some ("acknowledged", some 9) ∧
      ∃ a ∈ db'.acknowledgements, a.ack_id = some ackId ∧ a.is_final = true ∧
        a.status = "accepted" ∧ a.final_price_per_item = some 9 :=
  acknowledge_accept_locks_price dbPendingPO 3 9 poDemoPending
    (by decide) (by decide)

-- ---------- C4 (amended): receive semantics ----------

/-- C4 amended: receiving is legal only from `acknowledged` (else HTTP 400),
fails if a `received` DeliveryInbound already exists, and on success
increments the StockItem by exactly qty_ordered, records a NEW
DeliveryInbound row with status `received` (the `in_transit` row opened at
acknowledgement is not modified), and moves the PO to `received`; a second
receive then fails with HTTP 400 and changes nothing. -/
theorem receive_po_spec (db : DB) (po_id : Nat) (po : PurchaseOrder)
    (hpo : findPurchaseOrder db (some po_id) = some po) :
    (po.po_status ≠ "acknowledged" →
      receive_po db po_id
        = .err 400 "PO must be acknowledged before receiving goods") ∧
    (∀ item d, po.po_status = "acknowledged" →
      findStockItem db po.item_id = some item →
      findReceivedDelivery db (some po_id) = some d →
      receive_po db po_id = .err 400 "Goods already received for this PO") ∧
    (∀ item, po.po_status = "acknowledged" →
      findStockItem db po.item_id = some item →
      findReceivedDelivery db (some po_id) = none →
      ∃ db', receive_po db po_id = .ok (item.item_qty + po.qty_ordered) db' ∧
        (findStockItem db' po.item_id).map (fun r => r.item_qty)
          = some (item.item_qty + po.qty_ordered) ∧
        (findPurchaseOrder db' (some po_id)).map (fun r => r.po_status)
          = some "received" ∧
        (∃ d ∈ db'.delivery_inbound, d.po_id = some po_id ∧
          d.status = "received") ∧
        receive_po db' po_id
          = .err 400 "PO must be acknowledged before receiving goods" ∧
        stateAfter (receive_po db' po_id) db' = db') := by
  unfold findPurchaseOrder at hpo
  have hpq : po.po_id = some po_id := by simpa using List.find?_some hpo
  refine ⟨?_, ?_, ?_⟩
  · intro hst
    have hguard : (po.po_status != "acknowledged") = true := by simp [hst]
    unfold receive_po findPurchaseOrder
    rw [hpo]
    dsimp only
    rw [hguard]
    simp only [if_true]
  · intro item d hst hit hdup
    have hguard : (po.po_status != "acknowledged") = false := by simp [hst]
    unfold findStockItem at hit
    unfold receive_po findPurchaseOrder findStockItem
    rw [hpo]
    dsimp only
    rw [hguard]
    simp only [Bool.false_eq_true, if_false]
    rw [hit]
    dsimp only
    rw [hdup]
  · intro item hst hit hnone
    have hguard : (po.po_status != "acknowledged") = false := by simp [hst]
    unfold findStockItem at hit
    have hiq : item.item_id = po.item_id := by simpa using List.find?_some hit
    refine ⟨{ stock_items := db.stock_items.map (fun (r : StockItem) =>
                  if r.item_id == po.item_id then
                    { r with item_qty := item.item_qty + po.qty_ordered }
                  else r),
              suppliers := db.suppliers,
              purchase_orders := db.purchase_orders.map (fun (p : PurchaseOrder) =>
                  if p.po_id == some po_id then { p with po_status := "received" }
                  else p),
              acknowledgements := db.acknowledgements,
              delivery_inbound := db.delivery_inbound ++
                [{ delivery_inbound_id := some db.nextId, po_id := some po_id,
                   status := "received" }],
              bills := db.bills, clients := db.clients, quotes := db.quotes,
              sales_orders := db.sales_orders,
              delivery_outbound := db.delivery_outbound, invoices := db.invoices,
              nextId := db.nextId + 1 }, ?_, ?_, ?_, ?_, ?_⟩
    · unfold receive_po findPurchaseOrder findStockItem
      rw [hpo]
      dsimp only
      rw [hguard]
      simp only [Bool.false_eq_true, if_false]
      rw [hit]
      dsimp only
      rw [hnone]
      rfl
    · show ((db.stock_items.map _).find? _).map _ = _
      rw [find?_map_of_id _ _ _ (by
        intro a
        split <;> rfl)]
      rw [hit]
      simp [hiq]
    · show ((db.purchase_orders.map _).find? _).map _ = _
      rw [find?_map_of_id _ _ _ (by
        intro a
        split <;> rfl)]
      rw [hpo]
      simp [hpq]
    · exact ⟨_, List.mem_append_right _ (List.mem_singleton.mpr rfl), rfl, rfl⟩
    · have e2 : receive_po
          { stock_items := db.stock_items.map (fun (r : StockItem) =>
              if r.item_id == po.item_id then
                { r with item_qty := item.item_qty + po.qty_ordered }
              else r),
            suppliers := db.suppliers,
            purchase_orders := db.purchase_orders.map (fun (p : PurchaseOrder) =>
              if p.po_id == some po_id then { p with po_status := "received" } else p),
            acknowledgements := db.acknowledgements,
            delivery_inbound := db.delivery_inbound ++
              [{ delivery_inbound_id := some db.nextId, po_id := some po_id,
                 status := "received" }],
            bills := db.bills, clients := db.clients, quotes := db.quotes,
            sales_orders := db.sales_orders,
            delivery_outbound := db.delivery_outbound, invoices := db.invoices,
            nextId := db.nextId + 1 } po_id
          = .err 400 "PO must be acknowledged before receiving goods" := by
        unfold receive_po findPurchaseOrder
        dsimp only
        rw [find?_map_of_id _ _ _ (by
          intro a
          split <;> rfl)]
        rw [hpo]
        simp [hpq]
      exact ⟨e2, by rw [e2]; rfl⟩

/-- PO 3 acknowledged accepted at price 9 (delivery 4 in transit, ack 5). -/
def dbAckedPO : DB :=
  Op.step (.acknowledgePO 3 (some 9) "accepted") dbPendingPO

def poDemoAcked : PurchaseOrder :=
  { po_id := some 3, supplier_id := some 1, item_id := some 2,
    qty_ordered := 50, final_price_per_item := some 9,
    po_status := "acknowledged" }

def itemDemoAcked : StockItem :=
  { item_id := some 2, item_name := "i", item_qty := 0, rate := 1,
    safety_stock := 0 }

/-- C4 witness: receiving acknowledged PO 3 adds its 50 units (0 → 50),
moves the PO to `received`, records a `received` DeliveryInbound, and a
second receive fails with HTTP 400 without changing anything. -/
theorem receive_po_spec_witness :
    ∃ db', receive_po dbAckedPO 3
        = .ok (itemDemoAcked.item_qty + poDemoAcked.qty_ordered) db' ∧
      (findStockItem db' poDemoAcked.item_id).map (fun r => r.item_qty)
        = some (itemDemoAcked.item_qty + poDemoAcked.qty_ordered) ∧
      (findPurchaseOrder db' (some 3)).map (fun r => r.po_status)
        = some "received" ∧
      (∃ d ∈ db'.delivery_inbound, d.po_id = some 3 ∧ d.status = "received") ∧
      receive_po db' 3
        = .err 400 "PO must be acknowledged before receiving goods" ∧
      stateAfter (receive_po db' 3) db' = db' :=
  (receive_po_spec dbAckedPO 3 poDemoAcked (by decide)).2.2 itemDemoAcked
    (by decide) (by decide) (by decide)

-- ---------- C3 (amended): version monotonicity, no deletion ----------

/-- An existing acknowledgement of a PO is bounded by `maxAckVersion`. -/
theorem ackVersion_le_max (db : DB) (po_id : Nat) (old : Acknowledgement)
    (hmem : old ∈ db.acknowledgements) (hpid : old.po_id = some po_id) :
    ∃ v, maxAckVersion db (some po_id) = some v ∧ old.version ≤ v := by
  have hmemv : old.version ∈ ((db.acknowledgements.filter
      (fun r => r.po_id == some po_id)).map (fun r => r.version)) :=
    List.mem_map_of_mem _ (List.mem_filter.mpr ⟨hmem, by simp [hpid]⟩)
  unfold maxAckVersion
  cases hmax : ((db.acknowledgements.filter
      (fun r => r.po_id == some po_id)).map (fun r => r.version)).max? with
  | none =>
    rw [List.max?_eq_none_iff] at hmax
    rw [hmax] at hmemv
    cases hmemv
  | some v =>
    exact ⟨v, rfl, (List.max?_le_iff (fun _ _ _ => max_le_iff) hmax).mp le_rfl
      _ hmemv⟩

/-- C3 amended: every new Acknowledgement (whatever the action) gets a
version strictly greater than every existing version for the same PO, and a
revised Quote gets version = revised quote's version + 1 (strictly greater
than the quote it revises — though not necessarily greater than every other
version in its chain); neither operation ever deletes an existing record. -/
theorem versions_strictly_increase (db : DB) (po_id : Nat) (pr : Option Rat)
    (action : String) (qid : Nat) (price : Rat) :
    (∀ po, findPurchaseOrder db (some po_id) = some po →
      po.po_status = "pending_price_negotiation" →
      (lowerStr action = "accepted" ∨ lowerStr action = "rejected" ∨
        lowerStr action = "revised") →
      ∃ ackId db', acknowledge_po db po_id pr action = .ok ackId db' ∧
        (∃ a ∈ db'.acknowledgements, a.ack_id = some ackId ∧
          ∀ old ∈ db.acknowledgements, old.po_id = some po_id →
            old.version < a.version) ∧
        (∀ old ∈ db.acknowledgements, ∃ a ∈ db'.acknowledgements,
          a.ack_id = old.ack_id)) ∧
    (∀ old, findQuote db (some qid) = some old → old.is_final = false →
      ∃ newId db', revise_quote db qid price = .ok newId db' ∧
        (∃ nq ∈ db'.quotes, nq.quote_id = some newId ∧
          nq.version = old.version + 1 ∧ nq.client_id = old.client_id ∧
          nq.item_id = old.item_id ∧ nq.order_qty = old.order_qty ∧
          nq.final_price_per_item = price) ∧
        (∀ q ∈ db.quotes, ∃ q' ∈ db'.quotes, q'.quote_id = q.quote_id)) := by
  constructor
  · intro po hpo hst hact
    unfold findPurchaseOrder at hpo
    have hguard : (po.po_status != "pending_price_negotiation") = false := by
      simp [hst]
    unfold acknowledge_po findPurchaseOrder
    rw [hpo]
    dsimp only
    rw [hguard]
    simp only [Bool.false_eq_true, if_false]
    cases hmax : maxAckVersion db (some po_id) with
    | none =>
      dsimp only
      rcases hact with ha | ha | ha <;> rw [ha]
      · rw [show (!("accepted" == "accepted" || "accepted" == "rejected"
            || "accepted" == "revised")) = false from rfl]
        simp only [Bool.false_eq_true, if_false]
        rw [show ("accepted" == "accepted") = true from rfl]
        simp only [if_true, DB.insertAcknowledgement, DB.insertDeliveryInbound]
        refine ⟨_, _, rfl, ⟨_, List.mem_append_right _
          (List.mem_singleton.mpr rfl), rfl, ?_⟩, ?_⟩
        · intro old hmem hpid
          obtain ⟨v, hv, _⟩ := ackVersion_le_max db po_id old hmem hpid
          rw [hmax] at hv
          cases hv
        · intro old hmem
          refine ⟨_, List.mem_append_left _ (List.mem_map_of_mem _ hmem), ?_⟩
          dsimp only
          split <;> rfl
      · rw [show (!("rejected" == "accepted" || "rejected" == "rejected"
            || "rejected" == "revised")) = false from rfl]
        simp only [Bool.false_eq_true, if_false]
        rw [show ("rejected" == "accepted") = false from rfl]
        simp only [Bool.false_eq_true, if_false]
        rw [show ("rejected" == "rejected") = true from rfl]
        simp only [if_true, DB.insertAcknowledgement]
        refine ⟨_, _, rfl, ⟨_, List.mem_append_right _
          (List.mem_singleton.mpr rfl), rfl, ?_⟩, ?_⟩
        · intro old hmem hpid
          obtain ⟨v, hv, _⟩ := ackVersion_le_max db po_id old hmem hpid
          rw [hmax] at hv
          cases hv
        · intro old hmem
          exact ⟨old, List.mem_append_left _ hmem, rfl⟩
      · rw [show (!("revised" == "accepted" || "revised" == "rejected"
            || "revised" == "revised")) = false from rfl]
        simp only [Bool.false_eq_true, if_false]
        rw [show ("revised" == "accepted") = false from rfl]
        simp only [Bool.false_eq_true, if_false]
        rw [show ("revised" == "rejected") = false from rfl]
        simp only [Bool.false_eq_true, if_false]
        simp only [DB.insertAcknowledgement]
        refine ⟨_, _, rfl, ⟨_, List.mem_append_right _
          (List.mem_singleton.mpr rfl), rfl, ?_⟩, ?_⟩
        · intro old hmem hpid
          obtain ⟨v, hv, _⟩ := ackVersion_le_max db po_id old hmem hpid
          rw [hmax] at hv
          cases hv
        · intro old hmem
          exact ⟨old, List.mem_append_left _ hmem, rfl⟩
    | some v =>
      dsimp only
      rcases hact with ha | ha | ha <;> rw [ha]
      · rw [show (!("accepted" == "accepted" || "accepted" == "rejected"
            || "accepted" == "revised")) = false from rfl]
        simp only [Bool.false_eq_true, if_false]
        rw [show ("accepted" == "accepted") = true from rfl]
        simp only [if_true, DB.insertAcknowledgement, DB.insertDeliveryInbound]
        refine ⟨_, _, rfl, ⟨_, List.mem_append_right _
          (List.mem_singleton.mpr rfl), rfl, ?_⟩, ?_⟩
        · intro old hmem hpid
          obtain ⟨v', hv, hle⟩ := ackVersion_le_max db po_id old hmem hpid
          rw [hmax] at hv
          cases hv
          exact lt_of_le_of_lt hle (lt_add_one v)
        · intro old hmem
          refine ⟨_, List.mem_append_left _ (List.mem_map_of_mem _ hmem), ?_⟩
          dsimp only
          split <;> rfl
      · rw [show (!("rejected" == "accepted" || "rejected" == "rejected"
            || "rejected" == "revised")) = false from rfl]
        simp only [Bool.false_eq_true, if_false]
        rw [show ("rejected" == "accepted") = false from rfl]
        simp only [Bool.false_eq_true, if_false]
        rw [show ("rejected" == "rejected") = true from rfl]
        simp only [if_true, DB.insertAcknowledgement]
        refine ⟨_, _, rfl, ⟨_, List.mem_append_right _
          (List.mem_singleton.mpr rfl), rfl, ?_⟩, ?_⟩
        · intro old hmem hpid
          obtain ⟨v', hv, hle⟩ := ackVersion_le_max db po_id old hmem hpid
          rw [hmax] at hv
          cases hv
          exact lt_of_le_of_lt hle (lt_add_one v)
        · intro old hmem
          exact ⟨old, List.mem_append_left _ hmem, rfl⟩
      · rw [show (!("revised" == "accepted" || "revised" == "rejected"
            || "revised" == "revised")) = false from rfl]
        simp only [Bool.false_eq_true, if_false]
        rw [show ("revised" == "accepted") = false from rfl]
        simp only [Bool.false_eq_true, if_false]
        rw [show ("revised" == "rejected") = false from rfl]
        simp only [Bool.false_eq_true, if_false]
        simp only [DB.insertAcknowledgement]
        refine ⟨_, _, rfl, ⟨_, List.mem_append_right _
          (List.mem_singleton.mpr rfl), rfl, ?_⟩, ?_⟩
        · intro old hmem hpid
          obtain ⟨v', hv, hle⟩ := ackVersion_le_max db po_id old hmem hpid
          rw [hmax] at hv
          cases hv
          exact lt_of_le_of_lt hle (lt_add_one v)
        · intro old hmem
          exact ⟨old, List.mem_append_left _ hmem, rfl⟩
  · intro old hq hfin
    unfold findQuote at hq
    unfold revise_quote findQuote
    rw [hq]
    dsimp only
    rw [hfin]
    simp only [Bool.false_eq_true, if_false]
    simp only [DB.insertQuote]
    refine ⟨_, _, rfl, ⟨_, List.mem_append_right _ (List.mem_singleton.mpr rfl),
      rfl, rfl, rfl, rfl, rfl, rfl⟩, ?_⟩
    intro q hmem
    refine ⟨_, List.mem_append_left _ (List.mem_map_of_mem _ hmem), ?_⟩
    dsimp only
    split <;> rfl

-- ---------- C7: delivery totals and status consistency ----------

/-- The per-order fulfillment invariant: the delivered total is between 0
and qty_ordered, the order is `delivered` iff the total equals qty_ordered,
and `partially_delivered` iff the total is strictly between 0 and it. -/
def FulfillInv (db : DB) (so_id : Nat) : Prop :=
  ∀ so, findSalesOrder db (some so_id) = some so →
    0 ≤ sumDelivered db (some so_id) ∧
    sumDelivered db (some so_id) ≤ so.qty_ordered ∧
    (so.order_status = "delivered" ↔
      sumDelivered db (some so_id) = so.qty_ordered) ∧
    (so.order_status = "partially_delivered" ↔
      (0 < sumDelivered db (some so_id) ∧
        sumDelivered db (some so_id) < so.qty_ordered))

/-- Appending one outbound delivery adds its quantity to the total of its
own order and leaves every other order's total unchanged. -/
theorem sum_filter_append_delivery (l : List DeliveryOutbound)
    (d : DeliveryOutbound) (sid : Option Nat) :
    (((l ++ [d]).filter (fun r => r.so_id == sid)).map
        (fun r => r.delivered_qty)).sum
      = ((l.filter (fun r => r.so_id == sid)).map
          (fun r => r.delivered_qty)).sum
        + (if d.so_id == sid then d.delivered_qty else 0) := by
  rw [List.filter_append, List.map_append, List.sum_append]
  congr 1
  by_cases h : (d.so_id == sid) = true
  · simp [List.filter_cons, h]
  · simp [List.filter_cons, h]

/-- One deliver call — whatever its target and quantity — preserves the
fulfillment invariant of every order. -/
theorem deliver_preserves_FulfillInv (db : DB) (so_id t : Nat) (q : Int)
    (hq : 0 < q) (hI : FulfillInv db so_id) :
    FulfillInv (stateAfter (deliver_sales_order db t q) db) so_id := by
  unfold deliver_sales_order
  cases hfind : findSalesOrder db (some t) with
  | none => exact hI
  | some so =>
    by_cases hc1 : (so.order_status == "cancelled") = true
    · simp only [hc1, if_true]
      exact hI
    · by_cases hc2 : (so.order_status == "delivered") = true
      · simp only [hc1, hc2, Bool.false_eq_true, if_false, if_true]
        exact hI
      · by_cases hover : sumDelivered db (some t) + q > so.qty_ordered
        · simp only [hc1, hc2, Bool.false_eq_true, if_false, if_pos hover]
          exact hI
        · simp only [hc1, hc2, Bool.false_eq_true, if_false, if_neg hover,
            DB.insertDeliveryOutbound, stateAfter]
          unfold findSalesOrder at hfind
          have hso_t : so.so_id = some t := by
            simpa using List.find?_some hfind
          intro so' hso'
          unfold findSalesOrder at hso'
          dsimp only at hso'
          rw [find?_map_of_id _ _ _ (by
            intro a
            split <;> rfl)] at hso'
          unfold sumDelivered
          dsimp only
          simp only [sum_filter_append_delivery]
          rw [show ((db.delivery_outbound.filter
              (fun r => r.so_id == some so_id)).map
                (fun r => r.delivered_qty)).sum
            = sumDelivered db (some so_id) from rfl]
          by_cases hts : t = so_id
          · subst hts
            rw [hfind] at hso'
            simp only [Option.map_some'] at hso'
            rw [show (so.so_id == some t) = true from by simp [hso_t]] at hso'
            simp only [if_true] at hso'
            have hx := Option.some.inj hso'
            obtain ⟨h0, hle, hdel, hpart⟩ := hI so (by
              unfold findSalesOrder
              exact hfind)
            rw [show ((some t : Option Nat) == some t) = true from by simp]
            simp only [if_true]
            rw [← hx]
            dsimp only
            have hle' : sumDelivered db (some t) + q ≤ so.qty_ordered := by
              omega
            refine ⟨by omega, hle', ?_, ?_⟩
            · by_cases hlt : sumDelivered db (some t) + q < so.qty_ordered
              · rw [if_pos hlt]
                constructor
                · intro hh
                  exact absurd hh (by decide)
                · intro hh
                  omega
              · rw [if_neg hlt]
                exact ⟨fun _ => by omega, fun _ => rfl⟩
            · by_cases hlt : sumDelivered db (some t) + q < so.qty_ordered
              · rw [if_pos hlt]
                exact ⟨fun _ => by omega, fun _ => rfl⟩
              · rw [if_neg hlt]
                constructor
                · intro hh
                  exact absurd hh (by decide)
                · intro hh
                  omega
          · have hne : ((some t : Option Nat) == some so_id) = false := by
              simpa using hts
            rw [hne]
            simp only [Bool.false_eq_true, if_false, add_zero]
            cases hfind2 : findSalesOrder db (some so_id) with
            | none =>
              unfold findSalesOrder at hfind2
              rw [hfind2] at hso'
              cases hso'
            | some so2 =>
              unfold findSalesOrder at hfind2
              rw [hfind2] at hso'
              simp only [Option.map_some'] at hso'
              have hso2 : so2.so_id = some so_id := by
                simpa using List.find?_some hfind2
              rw [show (so2.so_id == some t) = false from by
                rw [hso2]
                simpa using fun hh => hts hh.symm] at hso'
              simp only [Bool.false_eq_true, if_false] at hso'
              have hrec := Option.some.inj hso'
              obtain ⟨h0, hle, hdel, hpart⟩ := hI so2 (by
                unfold findSalesOrder
                exact hfind2)
              rw [← hrec]
              exact ⟨h0, hle, hdel, hpart⟩

/-- C7: over any sequence of deliver calls the fulfillment invariant holds —
the delivered total never exceeds qty_ordered, the order is `delivered` iff
the total equals qty_ordered and `partially_delivered` iff it is strictly
between 0 and qty_ordered — and a delivery that would push the total past
qty_ordered is rejected with HTTP 400 and changes nothing. -/
theorem delivery_totals_bounded (db : DB) (so_id : Nat)
    (reqs : List (Nat × Int))
    (hI : FulfillInv db so_id)
    (hreqs : ∀ r ∈ reqs, 0 < r.2) :
    FulfillInv (reqs.foldl
      (fun d r => stateAfter (deliver_sales_order d r.1 r.2) d) db) so_id ∧
    (∀ q so, 0 < q → findSalesOrder db (some so_id) = some so →
      so.order_status ≠ "cancelled" → so.order_status ≠ "delivered" →
      so.qty_ordered < sumDelivered db (some so_id) + q →
      deliver_sales_order db so_id q
        = .err 400 "Delivered quantity exceeds ordered quantity" ∧
      stateAfter (deliver_sales_order db so_id q) db = db) := by
  constructor
  · have main : ∀ (rs : List (Nat × Int)) (d : DB), FulfillInv d so_id →
        (∀ r ∈ rs, 0 < r.2) →
        FulfillInv (rs.foldl
          (fun d r => stateAfter (deliver_sales_order d r.1 r.2) d) d) so_id := by
      intro rs
      induction rs with
      | nil =>
        intro d h _
        exact h
      | cons r rs ih =>
        intro d h hr
        simp only [List.foldl_cons]
        exact ih _ (deliver_preserves_FulfillInv d so_id r.1 r.2
            (hr r (List.mem_cons_self _ _)) h)
          (fun x hx => hr x (List.mem_cons_of_mem _ hx))
    exact main reqs db hI hreqs
  · intro q so hq hfind hnc hnd hover
    have hc1 : (so.order_status == "cancelled") = false := by simp [hnc]
    have hc2 : (so.order_status == "delivered") = false := by simp [hnd]
    have e : deliver_sales_order db so_id q
        = .err 400 "Delivered quantity exceeds ordered quantity" := by
      unfold deliver_sales_order
      rw [hfind]
      dsimp only
      rw [hc1]
      simp only [Bool.false_eq_true, if_false]
      rw [hc2]
      simp only [Bool.false_eq_true, if_false]
      rw [if_pos hover]
    exact ⟨e, by rw [e]; rfl⟩

/-- Client 1, item 2 (qty 10), confirmed direct sales order 3 for 4 units,
nothing delivered yet. -/
def dbDemoDeliver : DB :=
  Op.step (.createSO 1 2 4 5)
    (Op.step (.createItem "i" 10 1 0) (Op.step (.createClient "c") emptyDB))

def soDemoDeliver : SalesOrder :=
  { so_id := some 3, client_id := some 1, quote_id := none, item_id := some 2,
    qty_ordered := 4, final_price_per_item := 5, order_status := "confirmed",
    invoice_id := some 4 }

/-- C7 witness: delivering 2 then 2 of the 4 ordered units keeps the
invariant (ending `delivered` with total 4), and any delivery that would
overshoot is rejected with HTTP 400 as a no-op. -/
theorem delivery_totals_bounded_witness :
    FulfillInv ([((3 : Nat), (2 : Int)), (3, 2)].foldl
      (fun d r => stateAfter (deliver_sales_order d r.1 r.2) d)
      dbDemoDeliver) 3 ∧
    (∀ q so, 0 < q → findSalesOrder dbDemoDeliver (some 3) = some so →
      so.order_status ≠ "cancelled" → so.order_status ≠ "delivered" →
      so.qty_ordered < sumDelivered dbDemoDeliver (some 3) + q →
      deliver_sales_order dbDemoDeliver 3 q
        = .err 400 "Delivered quantity exceeds ordered quantity" ∧
      stateAfter (deliver_sales_order dbDemoDeliver 3 q) dbDemoDeliver
        = dbDemoDeliver) :=
  delivery_totals_bounded dbDemoDeliver 3 [(3, 2), (3, 2)]
    (by
      intro so hso
      rw [show findSalesOrder dbDemoDeliver (some 3) = some soDemoDeliver
        from rfl] at hso
      have hx := Option.some.inj hso
      subst hx
      exact ⟨by decide, by decide, by decide, by decide⟩)
    (by decide)

-- ---------- C1: stock quantities stay non-negative ----------

theorem qtyInv_congr (db db' : DB)
    (h1 : db'.stock_items = db.stock_items)
    (h2 : db'.sales_orders = db.sales_orders)
    (h3 : db'.purchase_orders = db.purchase_orders)
    (h4 : db'.quotes = db.quotes)
    (h : QtyInv db) : QtyInv db' := by
  obtain ⟨a, b, c, d⟩ := h
  refine ⟨?_, ?_, ?_, ?_⟩
  · rw [h1]
    exact a
  · rw [h2]
    exact b
  · rw [h3]
    exact c
  · rw [h4]
    exact d

theorem all_nonneg_map {α : Type} (l : List α) (f : α → α) (m : α → Int)
    (hf : ∀ a ∈ l, 0 ≤ m a → 0 ≤ m (f a)) (h : ∀ a ∈ l, 0 ≤ m a) :
    ∀ b ∈ l.map f, 0 ≤ m b := by
  intro b hb
  obtain ⟨a, ha, rfl⟩ := List.mem_map.mp hb
  exact hf a ha (h a ha)

theorem all_nonneg_append {α : Type} (l1 l2 : List α) (m : α → Int)
    (h1 : ∀ a ∈ l1, 0 ≤ m a) (h2 : ∀ a ∈ l2, 0 ≤ m a) :
    ∀ b ∈ l1 ++ l2, 0 ≤ m b := by
  intro b hb
  rcases List.mem_append.mp hb with h | h
  · exact h1 b h
  · exact h2 b h

/-- C1: every operation of the API preserves the non-negativity of all
StockItem quantities (together with the stored-order quantity facts that
feed them), and a stock adjustment that would drive the quantity negative
is rejected with HTTP 400 and leaves the store unchanged. -/
theorem stock_quantity_never_negative (db : DB) (op : Op)
    (hv : op.valid) (hI : QtyInv db) :
    QtyInv (op.step db) ∧
    (∀ (item_id : Nat) (t : AdjustmentType) (qy : Int) (item : StockItem),
      findStockItem db (some item_id) = some item →
      item.item_qty + (match t with
        | .increase => qy
        | .decrease => -qy) < 0 →
      adjust_inventory_item db item_id t qy
        = .err 400 "Stock adjustment would result in negative inventory" ∧
      Op.step (.adjust item_id t qy) db = db) := by
  constructor
  · cases op with
    | createItem nm qy rt sft =>
      obtain ⟨hq, _⟩ := hv
      show QtyInv (stateAfter (create_inventory_item db nm qy rt sft) db)
      unfold create_inventory_item
      simp only [DB.insertStockItem, stateAfter]
      obtain ⟨a, b, c, d⟩ := hI
      refine ⟨?_, b, c, d⟩
      exact all_nonneg_append _ _ _ a (by
        intro x hx
        rw [List.mem_singleton.mp hx]
        exact hq)
    | adjust iid t qy =>
      clear hv
      show QtyInv (stateAfter (adjust_inventory_item db iid t qy) db)
      unfold adjust_inventory_item
      cases hit : findStockItem db (some iid) with
      | none => exact hI
      | some item =>
        try dsimp only
        by_cases hneg : item.item_qty + (match t with
            | .increase => qy
            | .decrease => -qy) < 0
        · rw [if_pos hneg]
          exact hI
        · rw [if_neg hneg]
          simp only [stateAfter]
          obtain ⟨a, b, c, d⟩ := hI
          refine ⟨?_, b, c, d⟩
          exact all_nonneg_map _ _ _ (by
            intro x hx h0
            try dsimp only
            split
            · show 0 ≤ item.item_qty + _
              omega
            · exact h0) a
    | createSupplier nm disc =>
      show QtyInv (stateAfter (create_supplier db nm disc) db)
      unfold create_supplier
      simp only [DB.insertSupplier, stateAfter]
      exact qtyInv_congr _ _ rfl rfl rfl rfl hI
    | createPO sid iid qy pr =>
      obtain ⟨hq, _⟩ := hv
      show QtyInv (stateAfter (create_po db sid iid qy pr) db)
      unfold create_po
      cases hs : findSupplier db (some sid) with
      | none => exact hI
      | some sup =>
        try dsimp only
        cases hi : findStockItem db (some iid) with
        | none => exact hI
        | some it =>
          try dsimp only
          simp only [DB.insertPurchaseOrder, stateAfter]
          obtain ⟨a, b, c, d⟩ := hI
          refine ⟨a, b, ?_, d⟩
          exact all_nonneg_append _ _ _ c (by
            intro x hx
            rw [List.mem_singleton.mp hx]
            exact le_of_lt hq)
    | acknowledgePO pid pr act =>
      show QtyInv (stateAfter (acknowledge_po db pid pr act) db)
      unfold acknowledge_po
      cases hpo : findPurchaseOrder db (some pid) with
      | none => exact hI
      | some po =>
        try dsimp only
        by_cases hg : (po.po_status != "pending_price_negotiation") = true
        · rw [if_pos hg]
          exact hI
        · rw [if_neg hg]
          try dsimp only
          by_cases hv2 : (!(lowerStr act == "accepted"
              || lowerStr act == "rejected" || lowerStr act == "revised")) = true
          · rw [if_pos hv2]
            exact hI
          · rw [if_neg hv2]
            by_cases ha : (lowerStr act == "accepted") = true
            · rw [if_pos ha]
              simp only [DB.insertDeliveryInbound, DB.insertAcknowledgement,
                stateAfter]
              obtain ⟨a, b, c, d⟩ := hI
              refine ⟨a, b, ?_, d⟩
              exact all_nonneg_map _ _ _ (by
                intro x hx h0
                try dsimp only
                split
                · exact h0
                · exact h0) c
            · rw [if_neg ha]
              by_cases hr : (lowerStr act == "rejected") = true
              · rw [if_pos hr]
                simp only [DB.insertAcknowledgement, stateAfter]
                exact qtyInv_congr _ _ rfl rfl rfl rfl hI
              · rw [if_neg hr]
                simp only [DB.insertAcknowledgement, stateAfter]
                exact qtyInv_congr _ _ rfl rfl rfl rfl hI
    | receivePO pid =>
      show QtyInv (stateAfter (receive_po db pid) db)
      unfold receive_po
      cases hpo : findPurchaseOrder db (some pid) with
      | none => exact hI
      | some po =>
        try dsimp only
        by_cases hg : (po.po_status != "acknowledged") = true
        · rw [if_pos hg]
          exact hI
        · rw [if_neg hg]
          cases hit : findStockItem db po.item_id with
          | none => exact hI
          | some item =>
            try dsimp only
            cases hdup : findReceivedDelivery db (some pid) with
            | some dd => exact hI
            | none =>
              simp only [DB.insertDeliveryInbound, stateAfter]
              unfold findPurchaseOrder at hpo
              unfold findStockItem at hit
              obtain ⟨a, b, c, d⟩ := hI
              have hpoq : 0 ≤ po.qty_ordered :=
                c po (List.mem_of_find?_eq_some hpo)
              have hitq : 0 ≤ item.item_qty :=
                a item (List.mem_of_find?_eq_some hit)
              refine ⟨?_, b, ?_, d⟩
              · exact all_nonneg_map _ _ _ (by
                  intro x hx h0
                  try dsimp only
                  split
                  · show 0 ≤ item.item_qty + po.qty_ordered
                    omega
                  · exact h0) a
              · exact all_nonneg_map _ _ _ (by
                  intro x hx h0
                  try dsimp only
                  split
                  · exact h0
                  · exact h0) c
    | createBill pid =>
      show QtyInv (stateAfter (create_bill db pid) db)
      unfold create_bill
      repeat' split
      all_goals exact hI
    | payBill bid ref =>
      show QtyInv (stateAfter (pay_bill db bid ref) db)
      unfold pay_bill
      repeat' split
      all_goals exact hI
    | createClient nm =>
      show QtyInv (stateAfter (create_client db nm) db)
      unfold create_client
      simp only [DB.insertClient, stateAfter]
      exact qtyInv_congr _ _ rfl rfl rfl rfl hI
    | createQuote cid iid qy pr =>
      obtain ⟨hq, _⟩ := hv
      show QtyInv (stateAfter (create_quote db cid iid qy pr) db)
      unfold create_quote
      simp only [DB.insertQuote, stateAfter]
      obtain ⟨a, b, c, d⟩ := hI
      refine ⟨a, b, c, ?_⟩
      exact all_nonneg_append _ _ _ d (by
        intro x hx
        rw [List.mem_singleton.mp hx]
        exact le_of_lt hq)
    | reviseQuote qid pr =>
      show QtyInv (stateAfter (revise_quote db qid pr) db)
      unfold revise_quote
      cases hq : findQuote db (some qid) with
      | none => exact hI
      | some old =>
        try dsimp only
        by_cases hf : old.is_final = true
        · rw [if_pos hf]
          exact hI
        · rw [if_neg hf]
          simp only [DB.insertQuote, stateAfter]
          unfold findQuote at hq
          obtain ⟨a, b, c, d⟩ := hI
          have hold : 0 ≤ old.order_qty := d old (List.mem_of_find?_eq_some hq)
          refine ⟨a, b, c, ?_⟩
          refine all_nonneg_append _ _ _ ?_ ?_
          · exact all_nonneg_map _ _ _ (by
              intro x hx h0
              try dsimp only
              split
              · exact h0
              · exact h0) d
          · intro x hx
            rw [List.mem_singleton.mp hx]
            exact hold
    | acceptQuote qid =>
      show QtyInv (stateAfter (accept_quote db qid) db)
      unfold accept_quote
      cases hq : findQuote db (some qid) with
      | none => exact hI
      | some quote =>
        try dsimp only
        by_cases h1 : (quote.status == "accepted") = true
        · rw [if_pos h1]
          exact hI
        · rw [if_neg h1]
          by_cases h2 : quote.is_final = true
          · rw [if_pos h2]
            exact hI
          · rw [if_neg h2]
            cases hit : findStockItem db quote.item_id with
            | none => exact hI
            | some item =>
              try dsimp only
              by_cases h3 : item.item_qty < quote.order_qty
              · rw [if_pos h3]
                exact hI
              · rw [if_neg h3]
                try dsimp only
                split
                · exact hI
                · simp only [DB.insertSalesOrder, DB.insertInvoice, stateAfter]
                  unfold findQuote at hq
                  unfold findStockItem at hit
                  obtain ⟨a, b, c, d⟩ := hI
                  have hqm : 0 ≤ quote.order_qty :=
                    d quote (List.mem_of_find?_eq_some hq)
                  refine ⟨?_, ?_, c, ?_⟩
                  · exact all_nonneg_map _ _ _ (by
                      intro x hx h0
                      try dsimp only
                      split
                      · show 0 ≤ item.item_qty - quote.order_qty
                        omega
                      · exact h0) a
                  · refine all_nonneg_map _ _ _ (by
                      intro x hx h0
                      try dsimp only
                      split
                      · exact h0
                      · exact h0) ?_
                    refine all_nonneg_append _ _ _ b ?_
                    intro x hx
                    rw [List.mem_singleton.mp hx]
                    exact hqm
                  · refine all_nonneg_map _ _ _ (by
                      intro x hx h0
                      try dsimp only
                      split
                      · exact h0
                      · exact h0) ?_
                    exact all_nonneg_map _ _ _ (by
                      intro x hx h0
                      try dsimp only
                      split
                      · exact h0
                      · exact h0) d
    | createSO cid iid qy pr =>
      obtain ⟨hq, _⟩ := hv
      show QtyInv (stateAfter (create_sales_order db cid iid qy pr) db)
      unfold create_sales_order
      cases hit : findStockItem db (some iid) with
      | none => exact hI
      | some item =>
        try dsimp only
        by_cases h3 : item.item_qty < qy
        · rw [if_pos h3]
          exact hI
        · rw [if_neg h3]
          try dsimp only
          split
          · exact hI
          · simp only [DB.insertSalesOrder, DB.insertInvoice, stateAfter]
            obtain ⟨a, b, c, d⟩ := hI
            refine ⟨?_, ?_, c, d⟩
            · exact all_nonneg_map _ _ _ (by
                intro x hx h0
                try dsimp only
                split
                · show 0 ≤ item.item_qty - qy
                  omega
                · exact h0) a
            · refine all_nonneg_map _ _ _ (by
                intro x hx h0
                try dsimp only
                split
                · exact h0
                · exact h0) ?_
              refine all_nonneg_append _ _ _ b ?_
              intro x hx
              rw [List.mem_singleton.mp hx]
              exact le_of_lt hq
    | deliverSO sid qy =>
      show QtyInv (stateAfter (deliver_sales_order db sid qy) db)
      unfold deliver_sales_order
      cases hso : findSalesOrder db (some sid) with
      | none => exact hI
      | some so =>
        by_cases hc1 : (so.order_status == "cancelled") = true
        · simp only [hc1, if_true]
          exact hI
        · by_cases hc2 : (so.order_status == "delivered") = true
          · simp only [hc1, hc2, Bool.false_eq_true, if_false, if_true]
            exact hI
          · by_cases hover : sumDelivered db (some sid) + qy > so.qty_ordered
            · simp only [hc1, hc2, Bool.false_eq_true, if_false, if_pos hover]
              exact hI
            · simp only [hc1, hc2, Bool.false_eq_true, if_false, if_neg hover,
                DB.insertDeliveryOutbound, stateAfter]
              obtain ⟨a, b, c, d⟩ := hI
              refine ⟨a, ?_, c, d⟩
              exact all_nonneg_map _ _ _ (by
                intro x hx h0
                try dsimp only
                split
                · exact h0
                · exact h0) b
    | cancelSO sid =>
      show QtyInv (stateAfter (cancel_sales_order db sid) db)
      unfold cancel_sales_order
      cases hso : findSalesOrder db (some sid) with
      | none => exact hI
      | some so =>
        try dsimp only
        by_cases hg : (so.order_status == "delivered"
            || so.order_status == "partially_delivered") = true
        · rw [if_pos hg]
          exact hI
        · rw [if_neg hg]
          cases hit : findStockItem db so.item_id with
          | none => exact hI
          | some item =>
            try dsimp only
            simp only [stateAfter]
            unfold findSalesOrder at hso
            unfold findStockItem at hit
            obtain ⟨a, b, c, d⟩ := hI
            have h1 : 0 ≤ so.qty_ordered :=
              b so (List.mem_of_find?_eq_some hso)
            have h2 : 0 ≤ item.item_qty :=
              a item (List.mem_of_find?_eq_some hit)
            refine ⟨?_, ?_, c, d⟩
            · exact all_nonneg_map _ _ _ (by
                intro x hx h0
                try dsimp only
                split
                · show 0 ≤ item.item_qty + so.qty_ordered
                  omega
                · exact h0) a
            · exact all_nonneg_map _ _ _ (by
                intro x hx h0
                try dsimp only
                split
                · exact h0
                · exact h0) b
    | voidInvoice iid =>
      show QtyInv (stateAfter (void_invoice db iid) db)
      unfold void_invoice
      repeat' split
      all_goals exact hI
  · intro iid t qy item hit hneg
    unfold findStockItem at hit
    have e : adjust_inventory_item db iid t qy
        = .err 400 "Stock adjustment would result in negative inventory" := by
      unfold adjust_inventory_item findStockItem
      rw [hit]
      try dsimp only
      rw [if_pos hneg]
    refine ⟨e, ?_⟩
    show stateAfter (adjust_inventory_item db iid t qy) db = db
    rw [e]
    rfl

/-- Item 2, quote 3 (5 wanted, only 3 on hand): a rejected decrease of 5. -/
theorem stock_quantity_never_negative_witness :
    QtyInv (Op.step (.adjust 2 .decrease 5) dbDemoShort) ∧
    (∀ (item_id : Nat) (t : AdjustmentType) (qy : Int) (item : StockItem),
      findStockItem dbDemoShort (some item_id) = some item →
      item.item_qty + (match t with
        | .increase => qy
        | .decrease => -qy) < 0 →
      adjust_inventory_item dbDemoShort item_id t qy
        = .err 400 "Stock adjustment would result in negative inventory" ∧
      Op.step (.adjust item_id t qy) dbDemoShort = dbDemoShort) :=
  stock_quantity_never_negative dbDemoShort (.adjust 2 .decrease 5)
    (by show (0 : Int) < 5
        decide)
    (by unfold QtyInv
        decide)

-- ---------- C6: bill creation and payment cancel out on the balance ----------

theorem find?_append_of_none {α : Type} {l1 l2 : List α} {p : α → Bool}
    (h : l1.find? p = none) : (l1 ++ l2).find? p = l2.find? p := by
  rw [List.find?_append, h]
  rfl

theorem find?_eq_some_of_unique {α : Type} {l : List α} {p : α → Bool} {a : α}
    (ha : a ∈ l) (hpa : p a = true)
    (huniq : ∀ b ∈ l, p b = true → b = a) : l.find? p = some a := by
  induction l with
  | nil => cases ha
  | cons x t ih =>
    rw [List.find?_cons]
    cases hx : p x with
    | true =>
      rw [huniq x (List.mem_cons_self x t) hx]
    | false =>
      have hat : a ∈ t := by
        rcases List.mem_cons.mp ha with h | h
        · subst h
          rw [hpa] at hx
          cases hx
        · exact h
      exact ih hat (fun b hb hpb => huniq b (List.mem_cons_of_mem _ hb) hpb)

theorem find?_singleton_of_true {α : Type} {a : α} {p : α → Bool}
    (h : p a = true) : List.find? p [a] = some a := by
  rw [List.find?_cons, h]

/-- C6: the bill amount is recomputed as qty_ordered times the final
Acknowledgement's price at creation and again at payment, so creating and
then paying the Bill returns the supplier's balance to its prior value
(+amount, then -amount). -/
theorem bill_pay_balance_roundtrip (db : DB) (po_id billId sid : Nat)
    (ref : String) (db1 db2 : DB) (po : PurchaseOrder)
    (hfresh : ∀ b ∈ db.bills, ∀ i, b.bill_id = some i → i < db.nextId)
    (huniq : ∀ a1 ∈ db.acknowledgements, ∀ a2 ∈ db.acknowledgements,
      a1.ack_id = a2.ack_id → a1 = a2)
    (hpo : findPurchaseOrder db (some po_id) = some po)
    (hsid : po.supplier_id = some sid)
    (h1 : create_bill db po_id = .ok billId db1)
    (h2 : pay_bill db1 billId ref = .ok billId db2) :
    ∃ ack price, findFinalAck db (some po_id) = some ack ∧
      ack.final_price_per_item = some price ∧
      supplierBalance db1 sid
        = supplierBalance db sid + (po.qty_ordered : Rat) * price ∧
      supplierBalance db2 sid
        = supplierBalance db1 sid - (po.qty_ordered : Rat) * price ∧
      supplierBalance db2 sid = supplierBalance db sid := by
  unfold create_bill at h1
  rw [hpo] at h1
  dsimp only at h1
  by_cases hst : (po.po_status != "received") = true
  · rw [if_pos hst] at h1
    exact Outcome.noConfusion h1
  · rw [if_neg hst] at h1
    cases hbill : findBillByPo db (some po_id) with
    | some b0 =>
      rw [hbill] at h1
      exact Outcome.noConfusion h1
    | none =>
      rw [hbill] at h1
      try dsimp only at h1
      cases hack : findFinalAck db (some po_id) with
      | none =>
        rw [hack] at h1
        exact Outcome.noConfusion h1
      | some ack =>
        rw [hack] at h1
        try dsimp only at h1
        cases hsup : findSupplier db po.supplier_id with
        | none =>
          rw [hsup] at h1
          exact Outcome.noConfusion h1
        | some sup =>
          rw [hsup] at h1
          try dsimp only at h1
          cases hprice : ack.final_price_per_item with
          | none =>
            rw [hprice] at h1
            exact Outcome.noConfusion h1
          | some price =>
            rw [hprice] at h1
            simp only [DB.insertBill, Outcome.ok.injEq] at h1
            obtain ⟨hbid, hdb1⟩ := h1
            have hb1bills : db1.bills = db.bills
                ++ [{ bill_id := some billId, po_id := some po_id,
                      ack_id := ack.ack_id, payment_status := "pending",
                      payment_reference := none }] := by
              rw [← hbid, ← hdb1]
            have hb1pos : db1.purchase_orders = db.purchase_orders := by
              rw [← hdb1]
            have hb1acks : db1.acknowledgements = db.acknowledgements := by
              rw [← hdb1]
            unfold findSupplier at hsup
            have hsupid : (sup.supplier_id == po.supplier_id) = true := by
              simpa using List.find?_some hsup
            have hb1sups : db1.suppliers = db.suppliers.map
                (fun (s : Supplier) =>
                  if s.supplier_id == po.supplier_id then
                    { s with account_balance := sup.account_balance
                        + (po.qty_ordered : Rat) * price }
                  else s) := by
              rw [← hdb1]
            have hpnone : db.bills.find?
                (fun r => r.bill_id == some billId) = none := by
              rw [List.find?_eq_none]
              intro b hb hpb
              have hbb : b.bill_id = some billId := by simpa using hpb
              have hlt := hfresh b hb billId hbb
              omega
            unfold pay_bill at h2
            unfold findBill at h2
            rw [hb1bills, find?_append_of_none hpnone] at h2
            rw [find?_singleton_of_true (by simp)] at h2
            dsimp only at h2
            rw [show (("pending" : String) == "paid") = false from rfl] at h2
            simp only [Bool.false_eq_true, if_false] at h2
            unfold findPurchaseOrder at hpo
            have hfp1 : findPurchaseOrder db1 (some po_id) = some po := by
              unfold findPurchaseOrder
              rw [hb1pos]
              exact hpo
            rw [hfp1] at h2
            dsimp only at h2
            have hfs1 : findSupplier db1 po.supplier_id
                = some { sup with account_balance := sup.account_balance
                    + (po.qty_ordered : Rat) * price } := by
              unfold findSupplier
              rw [hb1sups]
              rw [find?_map_of_id _ _ _ (by
                intro a
                split <;> rfl)]
              rw [hsup]
              simp only [Option.map_some']
              rw [hsupid]
              rfl
            rw [hfs1] at h2
            dsimp only at h2
            have hackmem : ack ∈ db.acknowledgements := by
              unfold findFinalAck at hack
              exact List.mem_of_find?_eq_some hack
            have hfa1 : findAckById db1 ack.ack_id = some ack := by
              unfold findAckById
              rw [hb1acks]
              exact find?_eq_some_of_unique hackmem (beq_self_eq_true _)
                (fun b hb hpb => huniq b hb ack hackmem (by simpa using hpb))
            rw [hfa1] at h2
            dsimp only at h2
            rw [hprice] at h2
            dsimp only at h2
            simp only [Outcome.ok.injEq] at h2
            obtain ⟨-, hdb2⟩ := h2
            have hbal0 : supplierBalance db sid = sup.account_balance := by
              unfold supplierBalance findSupplier
              rw [← hsid, hsup]
            have hbal1 : supplierBalance db1 sid = sup.account_balance
                + (po.qty_ordered : Rat) * price := by
              unfold supplierBalance
              rw [← hsid, hfs1]
            have hbal2 : supplierBalance db2 sid = sup.account_balance := by
              rw [← hdb2]
              unfold supplierBalance findSupplier
              try dsimp only
              rw [← hsid]
              rw [hb1sups]
              rw [show ((db.suppliers.map (fun (s : Supplier) =>
                  if s.supplier_id == po.supplier_id then
                    { s with account_balance := sup.account_balance
                        + (po.qty_ordered : Rat) * price }
                  else s)).map (fun (s : Supplier) =>
                  if s.supplier_id == po.supplier_id then
                    { s with account_balance := (sup.account_balance
                        + (po.qty_ordered : Rat) * price)
                        - (po.qty_ordered : Rat) * price }
                  else s)).find? (fun r => r.supplier_id == po.supplier_id)
                = ((db.suppliers.map (fun (s : Supplier) =>
                  if s.supplier_id == po.supplier_id then
                    { s with account_balance := sup.account_balance
                        + (po.qty_ordered : Rat) * price }
                  else s)).find? (fun r => r.supplier_id == po.supplier_id)).map
                    (fun (s : Supplier) =>
                  if s.supplier_id == po.supplier_id then
                    { s with account_balance := (sup.account_balance
                        + (po.qty_ordered : Rat) * price)
                        - (po.qty_ordered : Rat) * price }
                  else s) from find?_map_of_id _ _ _ (by
                intro a
                split <;> rfl)]
              rw [show (db.suppliers.map (fun (s : Supplier) =>
                  if s.supplier_id == po.supplier_id then
                    { s with account_balance := sup.account_balance
                        + (po.qty_ordered : Rat) * price }
                  else s)).find? (fun r => r.supplier_id == po.supplier_id)
                = some { sup with account_balance := sup.account_balance
                    + (po.qty_ordered : Rat) * price } from by
                rw [find?_map_of_id _ _ _ (by
                  intro a
                  split <;> rfl)]
                rw [hsup]
                simp only [Option.map_some']
                rw [hsupid]
                rfl]
              simp only [Option.map_some']
              rw [hsupid]
              try dsimp only
              exact add_sub_cancel_right _ _
            refine ⟨ack, price, rfl, hprice, ?_, ?_, ?_⟩
            · rw [hbal1, hbal0]
            · rw [hbal2, hbal1]
              exact (add_sub_cancel_right _ _).symm
            · rw [hbal2, hbal0]

/-- The received-PO store after creating bill 7 for PO 3. -/
def dbBilled : DB := stateAfter (create_bill dbReceived 3) dbReceived

/-- The billed store after paying bill 7. -/
def dbPaid : DB := stateAfter (pay_bill dbBilled 7 "ref") dbBilled

def poDemoReceived : PurchaseOrder :=
  { po_id := some 3, supplier_id := some 1, item_id := some 2,
    qty_ordered := 50, final_price_per_item := some 9,
    po_status := "received" }

/-- C6 witness: PO 3 for 50 units at accepted price 9: the bill raises
supplier 1's balance by 450, the payment lowers it by 450, back to the
value before billing. -/
theorem bill_pay_balance_roundtrip_witness :
    ∃ ack price, findFinalAck dbReceived (some 3) = some ack ∧
      ack.final_price_per_item = some price ∧
      supplierBalance dbBilled 1
        = supplierBalance dbReceived 1
          + (poDemoReceived.qty_ordered : Rat) * price ∧
      supplierBalance dbPaid 1
        = supplierBalance dbBilled 1
          - (poDemoReceived.qty_ordered : Rat) * price ∧
      supplierBalance dbPaid 1 = supplierBalance dbReceived 1 :=
  bill_pay_balance_roundtrip dbReceived 3 7 1 "ref" dbBilled dbPaid
    poDemoReceived (by decide) (by decide) (by decide) (by decide)
    rfl rfl
